import Mathlib

/-!
Verification of the Raft node core of a distributed SQL database.

The definitions below are a shallow embedding of the Rust sources:
  src/raft/types.rs, src/raft/message.rs, src/raft/log.rs,
  src/raft/node/mod.rs, src/raft/node/candidate.rs, src/raft/node/follower.rs,
  src/raft/node/leader.rs, src/result.rs, src/kv/encodings/key.rs.

Modelling conventions:
  - Machine integers (u8, u64, i64) are embedded as Nat / Int; the two
    serialization functions, whose output is the two-complement bit pattern,
    take the value modulo 2 ^ 64 explicitly.
  - Unbounded mpsc channels (UnboundedSender) are embedded as the list of
    values sent so far; sending appends to the list.
  - A Rust assert that fails is a panic; panics and ordinary Result errors
    are both surfaced in an Except value, with a distinguished constructor
    for panics (RaftFailure.invariantViolation).
  - thread_rng is embedded as an explicit rng argument; gen_range over the
    half-open range a..b returns a + rng % (b - a), which is exactly the set
    of values gen_range can produce.
  - Functions of the repository whose body is missing (unimplemented or todo
    in the source) are modelled from the spec; each such definition carries a
    doc comment starting with "Modelled from the spec:".
-/

-- src/raft/types.rs
abbrev NodeId := Nat

abbrev Term := Nat

abbrev Ticks := Nat

abbrev LogEntryIndex := Nat

-- src/result.rs: `enum Error { Parse(String), Value(String) }`
inductive Error where
  | Parse (s : String)
  | Value (s : String)
deriving DecidableEq

/-- A failure surfaced by a raft node operation: either a Rust panic from a
failed assert (an invariant violation, unrecoverable) or an `Error` carried
by a `Result` (for example a storage failure). -/
inductive RaftFailure where
  | invariantViolation (msg : String)
  | err (e : Error)
deriving DecidableEq

/-- Modelled from the spec: the source declares `pub enum MessageAddress { }`
with no variants; section 4.5 of the spec requires it to distinguish a
specific peer, a broadcast to all peers, and a specific client. -/
inductive MessageAddress where
  | peer (id : NodeId)
  | broadcast
  | client
deriving DecidableEq

/-- `MessagePayload` from src/raft/message.rs declares `Heartbeat`,
`ClientRequest` and `ResponseToClient` (all with no fields).
Modelled from the spec: the vote-request payload variant, absent from the
source enum, is required by section 4.5 and is used by the modelled
broadcast in `startNewTerm`. -/
inductive MessagePayload where
  | Heartbeat
  | ClientRequest
  | ResponseToClient
  | VoteRequest
deriving DecidableEq

-- src/raft/message.rs: the wire envelope. The Rust field `from` is a
-- reserved word in Lean and is embedded as `fromAddr` (and `to` as `toAddr`).
structure Message where
  currentTermOfSender : Term
  fromAddr : MessageAddress
  toAddr : MessageAddress
  payload : MessagePayload
deriving DecidableEq

/-- Modelled from the spec: one state-machine command, `(term, index, command
bytes)` (section 3); the module defining it is absent from the source tree. -/
structure LogEntry where
  term : Term
  index : LogEntryIndex
  command : List Nat
deriving DecidableEq

/-- Modelled from the spec: an instruction to the state-machine driver
carries a committed log entry (section 6); the `state_machine_driver` module
is absent from the source tree. -/
inductive StateMachineDriverInstruction where
  | applyEntry (entry : LogEntry)
deriving DecidableEq

deriving instance DecidableEq for Except

/-- src/raft/log.rs. The storage engine behind the log is embedded as the
outcome of reading the single durable `(currentTerm, votedFor)` record:
`Except.ok` with the stored pair, or `Except.error` when the storage engine
fails. `lastStoredEntryIndex` and `lastStoredEntryTerm` are the two plain
fields of the Rust struct. -/
structure Log where
  currentTermAndCastVote : Except Error (Term × Option NodeId)
  lastStoredEntryIndex : LogEntryIndex
  lastStoredEntryTerm : Term
deriving DecidableEq

/-- Modelled from the spec: `Log::setCurrentTermAndCastVote` is unimplemented
in the source; section 4.3 specifies that it persists `(currentTerm,
votedFor)` as a single durable record. -/
def Log.setCurrentTermAndCastVote (log : Log) (term : Term)
    (castVote : Option NodeId) : Log :=
  { log with currentTermAndCastVote := Except.ok (term, castVote) }

/-- Modelled from the spec: `Log::getCurrentTermAndCastVote` is unimplemented
in the source; section 4.3 specifies that it retrieves the durable
`(currentTerm, votedFor)` record, and section 7 that a storage failure is
propagated to the caller. -/
def Log.getCurrentTermAndCastVote (log : Log) :
    Except Error (Term × Option NodeId) :=
  log.currentTermAndCastVote

-- src/raft/log.rs: `getLastStoredEntryIndexAndTerm`.
def Log.getLastStoredEntryIndexAndTerm (log : Log) : LogEntryIndex × Term :=
  (log.lastStoredEntryIndex, log.lastStoredEntryTerm)

-- src/raft/node/mod.rs: `const ELECTION_TIMEOUT_RANGE: Range<Ticks> = 10..20`
-- (a half-open Rust range, embedded as its two endpoints).
def ELECTION_TIMEOUT_RANGE : Ticks × Ticks := (10, 20)

-- src/raft/node/mod.rs: `getRandomElectionTimeout`. `thread_rng` is embedded
-- as the explicit `rng` argument; `gen_range` over the half-open range a..b
-- produces exactly the values a + rng % (b - a) for rng : Nat.
def getRandomElectionTimeout (rng : Nat) : Ticks :=
  ELECTION_TIMEOUT_RANGE.1 + rng % (ELECTION_TIMEOUT_RANGE.2 - ELECTION_TIMEOUT_RANGE.1)

-- src/raft/node/candidate.rs: the Candidate role state.
structure Candidate where
  electionDuration : Ticks
  electionTimeout : Ticks
  receivedVotes : Finset NodeId
deriving DecidableEq

-- The derived Default value of Candidate (all fields zero or empty).
def Candidate.defaultValue : Candidate :=
  { electionDuration := 0, electionTimeout := 0, receivedVotes := ∅ }

-- src/raft/node/candidate.rs: `Candidate::new` draws a fresh election
-- timeout and takes every other field from Default.
def Candidate.new (rng : Nat) : Candidate :=
  { Candidate.defaultValue with electionTimeout := getRandomElectionTimeout rng }

-- src/raft/node/follower.rs: the Follower role state.
structure Follower where
  leader : Option NodeId
  castVote : Option NodeId
  timeSinceLeaderSentHeartbeat : Ticks
  electionTimeout : Ticks
  requestsFromClient : Finset (List Nat)
deriving DecidableEq

-- The derived Default value of Follower.
def Follower.defaultValue : Follower :=
  { leader := none, castVote := none, timeSinceLeaderSentHeartbeat := 0,
    electionTimeout := 0, requestsFromClient := ∅ }

-- src/raft/node/follower.rs: `Follower::new` stores the given leader and
-- cast vote, draws a fresh election timeout, and takes the rest from Default.
def Follower.new (leader : Option NodeId) (castVote : Option NodeId)
    (rng : Nat) : Follower :=
  { Follower.defaultValue with
    leader := leader, castVote := castVote,
    electionTimeout := getRandomElectionTimeout rng }

-- src/raft/node/leader.rs: the Leader role state (no fields in the source).
structure Leader where
deriving DecidableEq

def Leader.new : Leader := {}

-- src/raft/node/mod.rs: `GenericNode<R>`. The two UnboundedSender channels
-- are embedded as the lists of values sent so far.
structure GenericNode (R : Type) where
  role : R
  currentTerm : Term
  id : NodeId
  peers : Finset NodeId
  messageSender : List Message
  log : Log
  stateMachineDriverInstructionsSender : List StateMachineDriverInstruction
deriving DecidableEq

-- src/raft/node/mod.rs: `changeRole` rebuilds the node with a new role and
-- every other field taken unchanged from `self`.
def GenericNode.changeRole {R NR : Type} (self : GenericNode R) (newRole : NR) :
    GenericNode NR :=
  { role := newRole,
    currentTerm := self.currentTerm,
    id := self.id,
    peers := self.peers,
    messageSender := self.messageSender,
    log := self.log,
    stateMachineDriverInstructionsSender := self.stateMachineDriverInstructionsSender }

-- src/raft/node/mod.rs: `clusterSize` is the peer count plus one.
def GenericNode.clusterSize {R : Type} (self : GenericNode R) : Nat :=
  self.peers.card + 1

-- src/raft/node/mod.rs: `getQuorumForClusterSize` is integer division.
def getQuorumForClusterSize (clusterSize : Nat) : Nat :=
  clusterSize / 2 + 1

-- src/raft/node/mod.rs: `quorom` (spelling as in the source).
def GenericNode.quorom {R : Type} (self : GenericNode R) : Nat :=
  getQuorumForClusterSize self.clusterSize

/-- src/raft/node/candidate.rs: `startNewTerm`. The source increments the
term, installs a fresh Candidate role, records the self-vote, and persists
`(newTerm, vote = self)`; its tail is a todo marker.
Modelled from the spec: the broadcast of vote requests to all peers that the
todo marker stands for (sections 4.1 and 4.2). -/
def GenericNode.startNewTerm (self : GenericNode Candidate) (rng : Nat) :
    GenericNode Candidate :=
  let newTerm := self.currentTerm + 1
  let role := Candidate.new rng
  let role := { role with receivedVotes := insert self.id role.receivedVotes }
  let castVote := some self.id
  let log := self.log.setCurrentTermAndCastVote newTerm castVote
  let voteRequestBroadcast : Message :=
    { currentTermOfSender := newTerm,
      fromAddr := MessageAddress.peer self.id,
      toAddr := MessageAddress.broadcast,
      payload := MessagePayload.VoteRequest }
  { self with
    currentTerm := newTerm, role := role, log := log,
    messageSender := self.messageSender ++ [voteRequestBroadcast] }

/-- src/raft/node/candidate.rs: `becomeLeader` changes the role to Leader;
the rest of its body is unimplemented in the source.
Modelled from the spec: the unimplemented parts immediately broadcast a
heartbeat to assert authority (section 4.1); the per-peer replication
progress the spec also asks for has no field in the source Leader struct. -/
def GenericNode.becomeLeader (self : GenericNode Candidate) :
    GenericNode Leader :=
  let node := self.changeRole Leader.new
  let heartbeatBroadcast : Message :=
    { currentTermOfSender := node.currentTerm,
      fromAddr := MessageAddress.peer node.id,
      toAddr := MessageAddress.broadcast,
      payload := MessagePayload.Heartbeat }
  { node with messageSender := node.messageSender ++ [heartbeatBroadcast] }

/-- src/raft/node/candidate.rs: `becomeFollower`. The two asserts of the
source are embedded as invariant-violation failures: a term regression
always panics; with a declared leader the term must equal the current term
(case a, the lost election), and without one it must differ (case b, the
newly discovered term, persisted with a cleared vote). -/
def GenericNode.becomeFollower (self : GenericNode Candidate)
    (currentTerm : Term) (leader : Option NodeId) (rng : Nat) :
    Except RaftFailure (GenericNode Follower) :=
  if currentTerm < self.currentTerm then
    Except.error (RaftFailure.invariantViolation "Term transition attemp")
  else
    match leader with
    | some leader =>
      if currentTerm ≠ self.currentTerm then
        Except.error
          (RaftFailure.invariantViolation "Cant follow leader in a different term")
      else
        let castVote := some self.id
        Except.ok (self.changeRole (Follower.new (some leader) castVote rng))
    | none =>
      if currentTerm = self.currentTerm then
        Except.error
          (RaftFailure.invariantViolation
            "Cant become leaderless follower in the current term")
      else
        let self :=
          { self with
            currentTerm := currentTerm,
            log := self.log.setCurrentTermAndCastVote currentTerm none }
        Except.ok (self.changeRole (Follower.new none none rng))

-- src/raft/node/follower.rs: `newAsLeaderless` restores the persisted
-- `(currentTerm, votedFor)` pair from the log (propagating a storage error
-- with the question-mark operator) and builds a leaderless Follower node.
def GenericNode.newAsLeaderless (nodeId : NodeId) (peers : Finset NodeId)
    (log : Log) (messageSender : List Message)
    (stateMachineDriverInstructionsSender : List StateMachineDriverInstruction)
    (rng : Nat) : Except RaftFailure (GenericNode Follower) :=
  match log.getCurrentTermAndCastVote with
  | Except.error e => Except.error (RaftFailure.err e)
  | Except.ok (newlyDiscoveredTerm, castVoteInNewlyDiscoveredTerm) =>
    Except.ok
      { role := Follower.new none castVoteInNewlyDiscoveredTerm rng,
        currentTerm := newlyDiscoveredTerm,
        id := nodeId,
        peers := peers,
        messageSender := messageSender,
        log := log,
        stateMachineDriverInstructionsSender := stateMachineDriverInstructionsSender }

-- src/raft/node/mod.rs: `enum Node`.
inductive Node where
  | candidate (n : GenericNode Candidate)
  | follower (n : GenericNode Follower)
  | leader (n : GenericNode Leader)

def Node.currentTerm : Node → Term
  | Node.candidate n => n.currentTerm
  | Node.follower n => n.currentTerm
  | Node.leader n => n.currentTerm

/-- One role-transition operation of the source, as a step relation on
`Node`: `startNewTerm`, `becomeLeader`, or a successful `becomeFollower`
(these are the only role transitions the source implements; they all start
from a Candidate). -/
inductive RoleTransition : Node → Node → Prop where
  | startNewTerm (n : GenericNode Candidate) (rng : Nat) :
      RoleTransition (Node.candidate n) (Node.candidate (n.startNewTerm rng))
  | becomeLeader (n : GenericNode Candidate) :
      RoleTransition (Node.candidate n) (Node.leader n.becomeLeader)
  | becomeFollower (n : GenericNode Candidate) (t : Term) (l : Option NodeId)
      (rng : Nat) (f : GenericNode Follower) :
      n.becomeFollower t l rng = Except.ok f →
      RoleTransition (Node.candidate n) (Node.follower f)

-- src/kv/encodings/key.rs: the key serializer.

/-- The big-endian base-256 digit list of `n`, `k` bytes long: digit `j`
(counted from the least significant, `j < k`) is `n / 256 ^ j % 256`.
For `k = 8` and `n < 2 ^ 64` this is exactly `u64::to_be_bytes`. -/
def beBytes : Nat → Nat → List Nat
  | 0, _ => []
  | k + 1, n => n / 256 ^ k % 256 :: beBytes k n

/-- Lexicographic less-or-equal on byte strings, exactly the key order of
the storage engine (src/storage/engine/mod.rs). -/
def lexLe : List Nat → List Nat → Bool
  | [], _ => true
  | _ :: _, [] => false
  | a :: as, b :: bs => if a < b then true else if a = b then lexLe as bs else false

-- src/kv/encodings/key.rs: the Serializer accumulates output bytes.
structure Serializer where
  output : List Nat
deriving DecidableEq

-- `u64::to_be_bytes` of a value of u64 (hence the modulus 2 ^ 64).
def u64ToBeBytes (v : Nat) : List Nat :=
  beBytes 8 (v % 2 ^ 64)

-- src/kv/encodings/key.rs: `serialize_u64` extends the output with the
-- big-endian bytes of the value.
def Serializer.serialize_u64 (self : Serializer) (v : Nat) : Serializer :=
  { output := self.output ++ u64ToBeBytes v }

-- The two-complement bit pattern of an i64, as a Nat below 2 ^ 64
-- (Int.emod with a positive modulus is never negative).
def i64Bits (v : Int) : Nat :=
  (v % (2 ^ 64 : Int)).toNat

-- `serializedValue[0] ^= 1 << 7`: flip the top bit of the first byte.
def flipSignBit : List Nat → List Nat
  | [] => []
  | b :: rest => Nat.xor b 128 :: rest

-- src/kv/encodings/key.rs: `serialize_i64` takes the big-endian
-- two-complement bytes and flips the sign bit of the first byte.
def i64ToBeBytes (v : Int) : List Nat :=
  flipSignBit (beBytes 8 (i64Bits v))

def Serializer.serialize_i64 (self : Serializer) (v : Int) : Serializer :=
  { output := self.output ++ i64ToBeBytes v }

-- Sanity checks of the serializer embedding on concrete values.
example : u64ToBeBytes 258 = [0, 0, 0, 0, 0, 0, 1, 2] := by decide

example : i64ToBeBytes (-1) = [127, 255, 255, 255, 255, 255, 255, 255] := by decide

example : i64ToBeBytes 0 = [128, 0, 0, 0, 0, 0, 0, 0] := by decide

example : lexLe (i64ToBeBytes (-1)) (i64ToBeBytes 0) = true := by decide

example : lexLe (i64ToBeBytes 0) (i64ToBeBytes (-1)) = false := by decide

-- A concrete candidate node used by witnesses: node 1 in term 5, voted for
-- itself (exactly the state startNewTerm leaves behind).
def exLog : Log :=
  { currentTermAndCastVote := Except.ok (5, some 1),
    lastStoredEntryIndex := 0, lastStoredEntryTerm := 0 }

def exCandidateNode : GenericNode Candidate :=
  { role := { electionDuration := 0, electionTimeout := 15, receivedVotes := {1} },
    currentTerm := 5,
    id := 1,
    peers := {2, 3},
    messageSender := [],
    log := exLog,
    stateMachineDriverInstructionsSender := [] }

/-! Helper lemmas for the order-preservation of the key serializer. -/

set_option maxRecDepth 4096 in
lemma xor128 : ∀ b : Nat, b < 256 →
    Nat.xor b 128 = if b < 128 then b + 128 else b - 128 := by decide

lemma beBytes_mod : ∀ (k n : Nat), beBytes k (n % 256 ^ k) = beBytes k n := by
  intro k
  induction k with
  | zero => intro n; rfl
  | succ k ih =>
    intro n
    have e1 : (256 : Nat) ^ (k + 1) = 256 ^ k * 256 := pow_succ 256 k
    have hdvd : (256 : Nat) ^ k ∣ 256 ^ (k + 1) := by
      rw [e1]; exact dvd_mul_right _ _
    have hd : n % 256 ^ (k + 1) / 256 ^ k % 256 = n / 256 ^ k % 256 := by
      calc n % 256 ^ (k + 1) / 256 ^ k % 256
          = n % 256 ^ (k + 1) % (256 ^ k * 256) / 256 ^ k :=
            (Nat.mod_mul_right_div_self (n % 256 ^ (k + 1)) (256 ^ k) 256).symm
        _ = n % 256 ^ (k + 1) / 256 ^ k := by
            rw [← e1, Nat.mod_mod_of_dvd n (dvd_refl _)]
        _ = n / 256 ^ k % 256 := by
            rw [e1]; exact Nat.mod_mul_right_div_self n (256 ^ k) 256
    have tl : beBytes k (n % 256 ^ (k + 1)) = beBytes k n := by
      have h2 : n % 256 ^ (k + 1) % 256 ^ k = n % 256 ^ k :=
        Nat.mod_mod_of_dvd n hdvd
      calc beBytes k (n % 256 ^ (k + 1))
          = beBytes k (n % 256 ^ (k + 1) % 256 ^ k) :=
            (ih (n % 256 ^ (k + 1))).symm
        _ = beBytes k (n % 256 ^ k) := by rw [h2]
        _ = beBytes k n := ih n
    show n % 256 ^ (k + 1) / 256 ^ k % 256 :: beBytes k (n % 256 ^ (k + 1))
        = n / 256 ^ k % 256 :: beBytes k n
    rw [hd, tl]

lemma base_digit_le (P a b r s : Nat) (hr : r < P) (hs : s < P) :
    P * a + r ≤ P * b + s ↔ a < b ∨ (a = b ∧ r ≤ s) := by
  constructor
  · intro h
    rcases Nat.lt_trichotomy a b with hab | hab | hab
    · exact Or.inl hab
    · subst hab
      exact Or.inr ⟨rfl, Nat.le_of_add_le_add_left h⟩
    · exfalso
      have h1 : P * (b + 1) ≤ P * a := Nat.mul_le_mul_left P hab
      have h2 : P * b + s < P * (b + 1) := by
        rw [Nat.mul_succ]; exact Nat.add_lt_add_left hs _
      exact absurd h
        (Nat.not_le.mpr
          (lt_of_lt_of_le (lt_of_lt_of_le h2 h1) (Nat.le_add_right _ _)))
  · rintro (hab | ⟨hab, hrs⟩)
    · have h1 : P * a + r < P * (a + 1) := by
        rw [Nat.mul_succ]; exact Nat.add_lt_add_left hr _
      have h2 : P * (a + 1) ≤ P * b := Nat.mul_le_mul_left P hab
      exact Nat.le_of_lt
        (lt_of_lt_of_le (lt_of_lt_of_le h1 h2) (Nat.le_add_right _ _))
    · subst hab
      exact Nat.add_le_add_left hrs _

lemma lexLe_beBytes : ∀ (k n m : Nat), n < 256 ^ k → m < 256 ^ k →
    (lexLe (beBytes k n) (beBytes k m) = true ↔ n ≤ m) := by
  intro k
  induction k with
  | zero =>
    intro n m hn hm
    rw [pow_zero] at hn hm
    simp only [beBytes, lexLe]
    constructor
    · intro; omega
    · intro; trivial
  | succ k ih =>
    intro n m hn hm
    have Ppos : 0 < (256 : Nat) ^ k := Nat.pow_pos (by norm_num)
    have e1 : (256 : Nat) ^ (k + 1) = 256 ^ k * 256 := pow_succ 256 k
    have hdn : n / 256 ^ k < 256 := Nat.div_lt_of_lt_mul (by rw [← e1]; exact hn)
    have hdm : m / 256 ^ k < 256 := Nat.div_lt_of_lt_mul (by rw [← e1]; exact hm)
    have hrn : n % 256 ^ k < 256 ^ k := Nat.mod_lt _ Ppos
    have hrm : m % 256 ^ k < 256 ^ k := Nat.mod_lt _ Ppos
    have key : n ≤ m ↔
        (n / 256 ^ k < m / 256 ^ k ∨
          (n / 256 ^ k = m / 256 ^ k ∧ n % 256 ^ k ≤ m % 256 ^ k)) := by
      have h := base_digit_le (256 ^ k) (n / 256 ^ k) (m / 256 ^ k)
        (n % 256 ^ k) (m % 256 ^ k) hrn hrm
      rw [Nat.div_add_mod n (256 ^ k), Nat.div_add_mod m (256 ^ k)] at h
      exact h
    have ihs := ih (n % 256 ^ k) (m % 256 ^ k) hrn hrm
    show lexLe (n / 256 ^ k % 256 :: beBytes k n)
        (m / 256 ^ k % 256 :: beBytes k m) = true ↔ n ≤ m
    rw [Nat.mod_eq_of_lt hdn, Nat.mod_eq_of_lt hdm,
      ← beBytes_mod k n, ← beBytes_mod k m, key]
    simp only [lexLe]
    by_cases h1 : n / 256 ^ k < m / 256 ^ k
    · simp [h1]
    · by_cases h2 : n / 256 ^ k = m / 256 ^ k
      · simp [h1, h2, ihs]
      · simp [h1, h2]

lemma flip_low_general (k n : Nat) (h : n / 256 ^ k < 128) :
    flipSignBit (beBytes (k + 1) n) = beBytes (k + 1) (n + 256 ^ k * 128) := by
  show Nat.xor (n / 256 ^ k % 256) 128 :: beBytes k n
      = (n + 256 ^ k * 128) / 256 ^ k % 256 :: beBytes k (n + 256 ^ k * 128)
  have hb : n / 256 ^ k < 256 := lt_trans h (by norm_num)
  congr 1
  · rw [Nat.mod_eq_of_lt hb, xor128 _ hb, if_pos h,
      Nat.add_mul_div_left n 128 (Nat.pow_pos (by norm_num)),
      Nat.mod_eq_of_lt (by omega)]
  · rw [← beBytes_mod k n, ← beBytes_mod k (n + 256 ^ k * 128),
      Nat.add_mul_mod_self_left]

lemma flip_high_general (k n : Nat) (h1 : 128 ≤ n / 256 ^ k)
    (h2 : n / 256 ^ k < 256) :
    flipSignBit (beBytes (k + 1) n) = beBytes (k + 1) (n - 256 ^ k * 128) := by
  have hle : 256 ^ k * 128 ≤ n := by
    have h := (Nat.le_div_iff_mul_le (Nat.pow_pos (by norm_num))).mp h1
    omega
  show Nat.xor (n / 256 ^ k % 256) 128 :: beBytes k n
      = (n - 256 ^ k * 128) / 256 ^ k % 256 :: beBytes k (n - 256 ^ k * 128)
  congr 1
  · rw [Nat.mod_eq_of_lt h2, xor128 _ h2, if_neg (by omega),
      Nat.sub_mul_div n (256 ^ k) 128 hle,
      Nat.mod_eq_of_lt (by omega)]
  · rw [← beBytes_mod k n, ← beBytes_mod k (n - 256 ^ k * 128),
      Nat.sub_mul_mod hle]

lemma i64ToBeBytes_biased (v : Int) (h1 : -(2 ^ 63) ≤ v) (h2 : v < 2 ^ 63) :
    i64ToBeBytes v = beBytes 8 (v + 2 ^ 63).toNat := by
  unfold i64ToBeBytes i64Bits
  have p63 : ((2 : Int) ^ 63) = 9223372036854775808 := by norm_num
  have p64 : ((2 : Int) ^ 64) = 18446744073709551616 := by norm_num
  rw [p63] at h1 h2 ⊢
  rw [p64]
  by_cases h0 : 0 ≤ v
  · have hm : v % (18446744073709551616 : Int) = v := by omega
    rw [hm]
    have he : (v + 9223372036854775808).toNat
        = v.toNat + 9223372036854775808 := by omega
    rw [he]
    have hlt : v.toNat / 256 ^ 7 < 128 := by
      apply Nat.div_lt_of_lt_mul
      have e : (256 : Nat) ^ 7 * 128 = 9223372036854775808 := by norm_num
      rw [e]; omega
    have hf := flip_low_general 7 v.toNat hlt
    have e2 : (256 : Nat) ^ 7 * 128 = 9223372036854775808 := by norm_num
    rw [e2] at hf
    exact hf
  · push_neg at h0
    have hm : v % (18446744073709551616 : Int)
        = v + 18446744073709551616 := by omega
    rw [hm]
    have he : (v + 9223372036854775808).toNat
        = (v + 18446744073709551616).toNat - 9223372036854775808 := by omega
    rw [he]
    have e7 : (256 : Nat) ^ 7 = 72057594037927936 := by norm_num
    have hd1 : 128 ≤ (v + 18446744073709551616).toNat / 256 ^ 7 := by
      rw [e7]; omega
    have hd2 : (v + 18446744073709551616).toNat / 256 ^ 7 < 256 := by
      rw [e7]; omega
    have hf := flip_high_general 7 (v + 18446744073709551616).toNat hd1 hd2
    have e2 : (256 : Nat) ^ 7 * 128 = 9223372036854775808 := by norm_num
    rw [e2] at hf
    exact hf

/-- C10: the key serializer is order-preserving on integers. For unsigned
64-bit values, `a ≤ b` exactly when the big-endian output of `serialize_u64`
for `a` is lexicographically at most the one for `b`; for signed 64-bit
values the same holds for `serialize_i64`, whose output is the big-endian
two-complement bytes with the sign bit flipped. -/
theorem key_serialization_order_preserving :
    (∀ a b : Nat, a < 2 ^ 64 → b < 2 ^ 64 →
      (a ≤ b ↔
        lexLe (Serializer.serialize_u64 ⟨[]⟩ a).output
          (Serializer.serialize_u64 ⟨[]⟩ b).output = true)) ∧
    (∀ a b : Int, -(2 ^ 63) ≤ a → a < 2 ^ 63 → -(2 ^ 63) ≤ b → b < 2 ^ 63 →
      (a ≤ b ↔
        lexLe (Serializer.serialize_i64 ⟨[]⟩ a).output
          (Serializer.serialize_i64 ⟨[]⟩ b).output = true)) := by
  constructor
  · intro a b ha hb
    have e : (256 : Nat) ^ 8 = 2 ^ 64 := by norm_num
    simp only [Serializer.serialize_u64, u64ToBeBytes, List.nil_append]
    rw [Nat.mod_eq_of_lt ha, Nat.mod_eq_of_lt hb]
    exact (lexLe_beBytes 8 a b (by rw [e]; exact ha) (by rw [e]; exact hb)).symm
  · intro a b ha1 ha2 hb1 hb2
    simp only [Serializer.serialize_i64, List.nil_append]
    rw [i64ToBeBytes_biased a ha1 ha2, i64ToBeBytes_biased b hb1 hb2]
    have p63 : ((2 : Int) ^ 63) = 9223372036854775808 := by norm_num
    have e8 : (256 : Nat) ^ 8 = 18446744073709551616 := by norm_num
    rw [p63] at ha1 ha2 hb1 hb2 ⊢
    have hta : (a + 9223372036854775808).toNat < 256 ^ 8 := by rw [e8]; omega
    have htb : (b + 9223372036854775808).toNat < 256 ^ 8 := by rw [e8]; omega
    rw [lexLe_beBytes 8 _ _ hta htb]
    omega

/-- Witness for C10 at the concrete inputs 3, 5 (unsigned) and -2, 1
(signed). -/
theorem key_serialization_order_preserving_witness :
    ((3 : Nat) ≤ 5 ↔
      lexLe (Serializer.serialize_u64 ⟨[]⟩ 3).output
        (Serializer.serialize_u64 ⟨[]⟩ 5).output = true) ∧
    ((-2 : Int) ≤ 1 ↔
      lexLe (Serializer.serialize_i64 ⟨[]⟩ (-2)).output
        (Serializer.serialize_i64 ⟨[]⟩ 1).output = true) :=
  ⟨key_serialization_order_preserving.1 3 5 (by norm_num) (by norm_num),
   key_serialization_order_preserving.2 (-2) 1 (by norm_num) (by norm_num)
     (by norm_num) (by norm_num)⟩

/-! Helper lemmas for the role-transition claims. -/

lemma becomeFollower_regression (n : GenericNode Candidate) (t : Term)
    (l : Option NodeId) (rng : Nat) (h : t < n.currentTerm) :
    n.becomeFollower t l rng =
      Except.error (RaftFailure.invariantViolation "Term transition attemp") := by
  simp [GenericNode.becomeFollower, h]

lemma becomeFollower_some_eq (n : GenericNode Candidate) (ldr : NodeId)
    (rng : Nat) :
    n.becomeFollower n.currentTerm (some ldr) rng =
      Except.ok (n.changeRole (Follower.new (some ldr) (some n.id) rng)) := by
  simp [GenericNode.becomeFollower]

lemma becomeFollower_some_higher (n : GenericNode Candidate) (t : Term)
    (ldr : NodeId) (rng : Nat) (h : n.currentTerm < t) :
    n.becomeFollower t (some ldr) rng =
      Except.error
        (RaftFailure.invariantViolation "Cant follow leader in a different term") := by
  have h1 : ¬ t < n.currentTerm := Nat.lt_asymm h
  have h2 : t ≠ n.currentTerm := (Nat.ne_of_lt h).symm
  simp [GenericNode.becomeFollower, h1, h2]

lemma becomeFollower_none_same (n : GenericNode Candidate) (rng : Nat) :
    n.becomeFollower n.currentTerm none rng =
      Except.error
        (RaftFailure.invariantViolation
          "Cant become leaderless follower in the current term") := by
  simp [GenericNode.becomeFollower]

lemma becomeFollower_none_higher (n : GenericNode Candidate) (t : Term)
    (rng : Nat) (h : n.currentTerm < t) :
    n.becomeFollower t none rng =
      Except.ok
        (({ n with
            currentTerm := t,
            log := n.log.setCurrentTermAndCastVote t none } :
           GenericNode Candidate).changeRole (Follower.new none none rng)) := by
  have h1 : ¬ t < n.currentTerm := Nat.lt_asymm h
  have h2 : ¬ t = n.currentTerm := (Nat.ne_of_lt h).symm
  simp [GenericNode.becomeFollower, h1, h2]

lemma becomeFollower_ok_cases (n : GenericNode Candidate) (t : Term)
    (l : Option NodeId) (rng : Nat) (f : GenericNode Follower)
    (h : n.becomeFollower t l rng = Except.ok f) :
    (t = n.currentTerm ∧ ∃ ldr, l = some ldr ∧
        f = n.changeRole (Follower.new (some ldr) (some n.id) rng)) ∨
    (n.currentTerm < t ∧ l = none ∧
        f = ({ n with
               currentTerm := t,
               log := n.log.setCurrentTermAndCastVote t none } :
              GenericNode Candidate).changeRole (Follower.new none none rng)) := by
  cases l with
  | some ldr =>
    by_cases h1 : t < n.currentTerm
    · rw [becomeFollower_regression n t (some ldr) rng h1] at h
      exact absurd h (by simp)
    · by_cases h2 : t = n.currentTerm
      · subst h2
        rw [becomeFollower_some_eq n ldr rng] at h
        exact Or.inl ⟨rfl, ldr, rfl, (Except.ok.inj h).symm⟩
      · have hgt : n.currentTerm < t :=
          Nat.lt_of_le_of_ne (Nat.le_of_not_lt h1) (fun e => h2 e.symm)
        rw [becomeFollower_some_higher n t ldr rng hgt] at h
        exact absurd h (by simp)
  | none =>
    by_cases h1 : t < n.currentTerm
    · rw [becomeFollower_regression n t none rng h1] at h
      exact absurd h (by simp)
    · by_cases h2 : t = n.currentTerm
      · subst h2
        rw [becomeFollower_none_same n rng] at h
        exact absurd h (by simp)
      · have hgt : n.currentTerm < t :=
          Nat.lt_of_le_of_ne (Nat.le_of_not_lt h1) (fun e => h2 e.symm)
        rw [becomeFollower_none_higher n t rng hgt] at h
        exact Or.inr ⟨hgt, rfl, (Except.ok.inj h).symm⟩

lemma roleTransition_mono (s t : Node) (h : RoleTransition s t) :
    s.currentTerm ≤ t.currentTerm := by
  cases h with
  | startNewTerm n rng => exact Nat.le_succ n.currentTerm
  | becomeLeader n => exact le_refl n.currentTerm
  | becomeFollower n t2 l rng f hok =>
    rcases becomeFollower_ok_cases n t2 l rng f hok with
      ⟨he, _, _, hf⟩ | ⟨hlt, _, hf⟩
    · subst hf; exact le_refl n.currentTerm
    · subst hf; exact Nat.le_of_lt hlt

lemma roleTransition_chain_mono (s t : Node)
    (h : Relation.ReflTransGen RoleTransition s t) :
    s.currentTerm ≤ t.currentTerm := by
  induction h with
  | refl => exact le_refl _
  | tail _ hbc ih => exact le_trans ih (roleTransition_mono _ _ hbc)

/-- C1: across every sequence of role-transition operations of the source
(startNewTerm, becomeLeader, successful becomeFollower), a node never
decreases its currentTerm; and a node constructed by newAsLeaderless starts
at the persisted term, so no later state of a chain drops below it. -/
theorem currentTerm_never_decreases :
    (∀ s t : Node, RoleTransition s t → s.currentTerm ≤ t.currentTerm) ∧
    (∀ s t : Node, Relation.ReflTransGen RoleTransition s t →
      s.currentTerm ≤ t.currentTerm) ∧
    (∀ (nodeId : NodeId) (peers : Finset NodeId) (log : Log)
        (ms : List Message) (sm : List StateMachineDriverInstruction)
        (rng : Nat) (t : Term) (v : Option NodeId) (f : GenericNode Follower),
      log.currentTermAndCastVote = Except.ok (t, v) →
      GenericNode.newAsLeaderless nodeId peers log ms sm rng = Except.ok f →
      ∀ u : Node, Relation.ReflTransGen RoleTransition (Node.follower f) u →
        t ≤ u.currentTerm) := by
  refine ⟨roleTransition_mono, roleTransition_chain_mono, ?_⟩
  intro nodeId peers log ms sm rng t v f hlog hnew u hchain
  have hf : f.currentTerm = t := by
    simp only [GenericNode.newAsLeaderless, Log.getCurrentTermAndCastVote,
      hlog] at hnew
    rw [← Except.ok.inj hnew]
  calc t = (Node.follower f).currentTerm := hf.symm
    _ ≤ u.currentTerm := roleTransition_chain_mono _ _ hchain

/-- Witness for C1: a concrete startNewTerm step from the example candidate
node. -/
theorem currentTerm_never_decreases_witness :
    Node.currentTerm (Node.candidate exCandidateNode) ≤
      Node.currentTerm (Node.candidate (exCandidateNode.startNewTerm 0)) :=
  currentTerm_never_decreases.1 _ _
    (RoleTransition.startNewTerm exCandidateNode 0)

/-- C2: quorum arithmetic. getQuorumForClusterSize is integer division
n / 2 + 1 with the stated concrete values, the result is always a strict
majority (so ties are impossible), and a node cluster size is its peer
count plus one. -/
theorem quorum_arithmetic :
    getQuorumForClusterSize 1 = 1 ∧
    getQuorumForClusterSize 3 = 2 ∧
    getQuorumForClusterSize 4 = 3 ∧
    getQuorumForClusterSize 5 = 3 ∧
    (∀ cs : Nat, 1 ≤ cs → getQuorumForClusterSize cs = cs / 2 + 1) ∧
    (∀ cs : Nat, 1 ≤ cs → cs < 2 * getQuorumForClusterSize cs) ∧
    (∀ (R : Type) (node : GenericNode R),
      node.clusterSize = node.peers.card + 1 ∧
      node.quorom = getQuorumForClusterSize node.clusterSize) := by
  refine ⟨rfl, rfl, rfl, rfl, ?_, ?_, ?_⟩
  · intro cs _; rfl
  · intro cs _; unfold getQuorumForClusterSize; omega
  · intro R node; exact ⟨rfl, rfl⟩

/-- Witness for C2 at cluster size 4: the quorum 3 is a strict majority. -/
theorem quorum_arithmetic_witness : 4 < 2 * getQuorumForClusterSize 4 :=
  quorum_arithmetic.2.2.2.2.2.1 4 (by decide)

/-- C3: becomeFollower validates its inputs and fails loudly. A term
regression, and a leaderless call at the current term, both produce an
invariant-violation failure and no follower node. -/
theorem becomeFollower_rejects_invalid_inputs :
    ∀ (n : GenericNode Candidate) (t : Term) (l : Option NodeId) (rng : Nat),
      (t < n.currentTerm →
        n.becomeFollower t l rng =
          Except.error (RaftFailure.invariantViolation "Term transition attemp")) ∧
      (t = n.currentTerm →
        n.becomeFollower t none rng =
          Except.error
            (RaftFailure.invariantViolation
              "Cant become leaderless follower in the current term")) := by
  intro n t l rng
  constructor
  · intro hlt
    exact becomeFollower_regression n t l rng hlt
  · intro heq
    rw [heq]
    exact becomeFollower_none_same n rng

/-- Witness for C3: both invalid calls on the example candidate node (term 5)
with the regressed term 3 and with the same term 5, leaderless. -/
theorem becomeFollower_rejects_invalid_inputs_witness :
    exCandidateNode.becomeFollower 3 (some 2) 0 =
      Except.error (RaftFailure.invariantViolation "Term transition attemp") ∧
    exCandidateNode.becomeFollower 5 none 0 =
      Except.error
        (RaftFailure.invariantViolation
          "Cant become leaderless follower in the current term") :=
  ⟨(becomeFollower_rejects_invalid_inputs exCandidateNode 3 (some 2) 0).1
      (by decide),
   (becomeFollower_rejects_invalid_inputs exCandidateNode 5 none 0).2 rfl⟩

/-- C4 fails on the code: calling becomeFollower with a strictly higher term
and a declared leader does not produce a follower (first conjunct: node 1 in
term 5 offered leader 2 at term 6 gets an error), and in the equal-term case
the recorded vote is the node own id, not the leader, with no new
persistence (second conjunct: the follower tracks leader 2 but castVote is
1 and the log record is still the self-vote of term 5). -/
theorem becomeFollower_with_leader_counterexample :
    (exCandidateNode.becomeFollower 6 (some 2) 0).isOk = false ∧
    (exCandidateNode.becomeFollower 5 (some 2) 0).toOption.map
        (fun f => (f.role.leader, f.role.castVote, f.log.currentTermAndCastVote))
      = some (some 2, some 1, Except.ok (5, some 1)) := by
  constructor
  · rfl
  · rfl

/-- C4 (amended): when a Candidate learns of a peer of its own current term
with a declared leader, becomeFollower(term, some leader) transitions it to
a Follower tracking that leader, recording the existing self-vote (castVote
= own id) and persisting nothing new; with a strictly higher term and a
declared leader the call is rejected as an invariant violation (a higher
term is only adopted leaderless, via becomeFollower(term, none)). -/
theorem becomeFollower_with_leader_amended :
    ∀ (n : GenericNode Candidate) (t : Term) (ldr : NodeId) (rng : Nat),
      (t = n.currentTerm →
        n.becomeFollower t (some ldr) rng =
          Except.ok (n.changeRole (Follower.new (some ldr) (some n.id) rng))) ∧
      (n.currentTerm < t →
        n.becomeFollower t (some ldr) rng =
          Except.error
            (RaftFailure.invariantViolation
              "Cant follow leader in a different term")) := by
  intro n t ldr rng
  exact ⟨fun heq => by rw [heq]; exact becomeFollower_some_eq n ldr rng,
         fun hgt => becomeFollower_some_higher n t ldr rng hgt⟩

/-- Witness for the amended C4: the equal-term case on the example node. -/
theorem becomeFollower_with_leader_amended_witness :
    exCandidateNode.becomeFollower 5 (some 2) 0 =
      Except.ok
        (exCandidateNode.changeRole
          (Follower.new (some 2) (some exCandidateNode.id) 0)) :=
  (becomeFollower_with_leader_amended exCandidateNode 5 2 0).1 rfl

/-- C5: for every Candidate and every strictly higher term t,
becomeFollower(t, none) succeeds with a leaderless Follower at term t with
no cast vote, and the pair (t, cleared vote) is persisted through the Log. -/
theorem becomeFollower_leaderless_new_term :
    ∀ (n : GenericNode Candidate) (t : Term) (rng : Nat),
      n.currentTerm < t →
      ∃ f : GenericNode Follower,
        n.becomeFollower t none rng = Except.ok f ∧
        f.role.leader = none ∧
        f.currentTerm = t ∧
        f.role.castVote = none ∧
        f.log = n.log.setCurrentTermAndCastVote t none ∧
        f.log.currentTermAndCastVote = Except.ok (t, none) := by
  intro n t rng h
  exact ⟨_, becomeFollower_none_higher n t rng h, rfl, rfl, rfl, rfl, rfl⟩

/-- Witness for C5: the example candidate node (term 5) discovering term 7. -/
theorem becomeFollower_leaderless_new_term_witness :
    ∃ f : GenericNode Follower,
      exCandidateNode.becomeFollower 7 none 0 = Except.ok f ∧
      f.role.leader = none ∧
      f.currentTerm = 7 ∧
      f.role.castVote = none ∧
      f.log = exCandidateNode.log.setCurrentTermAndCastVote 7 none ∧
      f.log.currentTermAndCastVote = Except.ok (7, none) :=
  becomeFollower_leaderless_new_term exCandidateNode 7 0 (by decide)

/-- C6: startNewTerm increments the term by exactly one, installs a fresh
Candidate role whose granted-vote set is exactly the own id, persists
(newTerm, vote = self) through the Log, and broadcasts a vote request to
all peers. -/
theorem startNewTerm_effects :
    ∀ (n : GenericNode Candidate) (rng : Nat),
      (n.startNewTerm rng).currentTerm = n.currentTerm + 1 ∧
      (n.startNewTerm rng).role.receivedVotes = {n.id} ∧
      (n.startNewTerm rng).role.electionDuration = 0 ∧
      (n.startNewTerm rng).role.electionTimeout = getRandomElectionTimeout rng ∧
      (n.startNewTerm rng).log =
        n.log.setCurrentTermAndCastVote (n.currentTerm + 1) (some n.id) ∧
      (n.startNewTerm rng).log.currentTermAndCastVote =
        Except.ok (n.currentTerm + 1, some n.id) ∧
      (n.startNewTerm rng).messageSender = n.messageSender ++
        [{ currentTermOfSender := n.currentTerm + 1,
           fromAddr := MessageAddress.peer n.id,
           toAddr := MessageAddress.broadcast,
           payload := MessagePayload.VoteRequest }] ∧
      (n.startNewTerm rng).id = n.id ∧
      (n.startNewTerm rng).peers = n.peers := by
  intro n rng
  refine ⟨rfl, ?_, rfl, rfl, rfl, rfl, rfl, rfl, rfl⟩
  show insert n.id (∅ : Finset NodeId) = {n.id}
  simp

/-- C7: newAsLeaderless builds the initial node as a leaderless Follower
whose currentTerm and cast vote are exactly the persisted pair read from
the Log; a storage error on that read is propagated and no node is built. -/
theorem newAsLeaderless_restores_persisted_state :
    ∀ (nodeId : NodeId) (peers : Finset NodeId) (log : Log)
       (ms : List Message) (sm : List StateMachineDriverInstruction)
       (rng : Nat),
      (∀ (t : Term) (v : Option NodeId),
        log.currentTermAndCastVote = Except.ok (t, v) →
        GenericNode.newAsLeaderless nodeId peers log ms sm rng =
          Except.ok
            { role := Follower.new none v rng,
              currentTerm := t,
              id := nodeId,
              peers := peers,
              messageSender := ms,
              log := log,
              stateMachineDriverInstructionsSender := sm }) ∧
      (∀ (v : Option NodeId) (rng2 : Nat),
        (Follower.new none v rng2).leader = none ∧
        (Follower.new none v rng2).castVote = v) ∧
      (∀ e : Error,
        log.currentTermAndCastVote = Except.error e →
        GenericNode.newAsLeaderless nodeId peers log ms sm rng =
          Except.error (RaftFailure.err e)) := by
  intro nodeId peers log ms sm rng
  refine ⟨?_, fun v rng2 => ⟨rfl, rfl⟩, ?_⟩
  · intro t v h
    simp only [GenericNode.newAsLeaderless, Log.getCurrentTermAndCastVote, h]
  · intro e h
    simp only [GenericNode.newAsLeaderless, Log.getCurrentTermAndCastVote, h]

/-- Witness for C7: restoring from the example log record (5, some 1). -/
theorem newAsLeaderless_restores_persisted_state_witness :
    GenericNode.newAsLeaderless 1 {2, 3} exLog [] [] 0 =
      Except.ok
        { role := Follower.new none (some 1) 0,
          currentTerm := 5,
          id := 1,
          peers := {2, 3},
          messageSender := [],
          log := exLog,
          stateMachineDriverInstructionsSender := [] } :=
  (newAsLeaderless_restores_persisted_state 1 {2, 3} exLog [] [] 0).1
    5 (some 1) rfl

/-- C8: the election timeout is freshly drawn from the fixed tick range
10 to 20 on every construction of a Candidate role state and of a Follower
role state, and every drawn value lies within that range. -/
theorem election_timeout_always_in_range :
    ∀ rng : Nat,
      ELECTION_TIMEOUT_RANGE = (10, 20) ∧
      10 ≤ getRandomElectionTimeout rng ∧
      getRandomElectionTimeout rng < 20 ∧
      (Candidate.new rng).electionTimeout = getRandomElectionTimeout rng ∧
      (∀ leader castVote : Option NodeId,
        (Follower.new leader castVote rng).electionTimeout =
          getRandomElectionTimeout rng) := by
  intro rng
  refine ⟨rfl, ?_, ?_, rfl, fun leader castVote => rfl⟩
  · exact Nat.le_add_right 10 (rng % 10)
  · exact Nat.add_lt_add_left (Nat.mod_lt rng (by decide)) 10

/-- C9: changeRole modifies only the role field; the id, currentTerm, peer
set, log handle and both channels of the returned node are identical to
those of the input node. -/
theorem changeRole_frame :
    ∀ (R NR : Type) (n : GenericNode R) (r : NR),
      (n.changeRole r).role = r ∧
      (n.changeRole r).currentTerm = n.currentTerm ∧
      (n.changeRole r).id = n.id ∧
      (n.changeRole r).peers = n.peers ∧
      (n.changeRole r).messageSender = n.messageSender ∧
      (n.changeRole r).log = n.log ∧
      (n.changeRole r).stateMachineDriverInstructionsSender =
        n.stateMachineDriverInstructionsSender :=
  fun _R _NR _n _r => ⟨rfl, rfl, rfl, rfl, rfl, rfl, rfl⟩
